import Mathlib

/-!
Verification of `src/backend/scripts/exapy-answer.py`.

The script pulls in Exa (from exa_py), load_dotenv (from dotenv) and the os
module, then runs three statements:

  load_dotenv()

  exa = Exa(api_key=os.getenv("EXA_API_KEY"))
  exa.answer("What's the TCP structure?")

We embed it shallowly.  The process environment is an association list of
variable names to values.  `load_dotenv` and the remote `Exa.answer` call are
external library code, so `load_dotenv` is modelled from its documented
semantics as described by the spec, and the remote side of `answer` is a
parameter (a stub) of the runner.  The runner `run` produces a trace of
observable events and a result; the Answer value is discarded, exactly as the
script discards it.
-/

namespace ExapyAnswer

/-- An environment namespace: an association list of names to values. -/
abbrev EnvMap := List (String × String)

/-- Association-list lookup: the first binding of the key wins. -/
def lookupEnv : EnvMap → String → Option String
  | [], _ => none
  | kv :: rest, k => if kv.1 = k then some kv.2 else lookupEnv rest k

/-- Embedding of `os.getenv`: read a variable from the environment namespace,
yielding `none` when it is absent, never failing. -/
def getenv (env : EnvMap) (k : String) : Option String :=
  lookupEnv env k

/-- Modelled from the spec: `load_dotenv` comes from the external
`python-dotenv` library, not from this repository's sources.  Per the spec it
loads a local configuration file into the process's environment namespace,
is safe to call repeatedly, and never overrides a variable that is already
present.  We model it as merging into `env` exactly those entries of the
configuration `file` whose keys are not yet bound. -/
def load_dotenv (file env : EnvMap) : EnvMap :=
  env ++ file.filter (fun kv => (lookupEnv env kv.1).isNone)

/-- The failure classes of the remote call, from the spec's error taxonomy. -/
inductive ExaError
  | authenticationError
  | networkError
  | serviceError (msg : String)
deriving DecidableEq, Repr

/-- The opaque Answer value returned by the remote service. -/
structure Answer where
  text : String
deriving DecidableEq, Repr

/-- The Exa client object: bound to exactly one credential. -/
structure Exa where
  api_key : Option String
deriving DecidableEq, Repr

/-- Observable events of an execution of the script. -/
inductive Event
  | loadDotenvCall
  | getenvCall (key : String)
  | answerCall (api_key : Option String) (query : String)
  | writeOut (channel : String) (data : String)
deriving DecidableEq, Repr

/-- A stub for the remote side of `Exa.answer`: given the client's credential
and the query string, it returns an Answer or raises one of the errors. -/
abbrev Remote := Option String → String → Except ExaError Answer

/-- The literal query string of line 8 of the script. -/
def theQuery : String := "What\x27s the TCP structure?"

/-- Embedding of the module body of `exapy-answer.py`: load the configuration
file into the process environment, read `EXA_API_KEY`, construct the client,
and issue the single `answer` call, discarding the Answer.  The trace records
every observable event in program order; the script itself performs no
`writeOut` event. -/
def run (remote : Remote) (file procEnv : EnvMap) :
    List Event × Except ExaError Unit :=
  let env := load_dotenv file procEnv
  let key := getenv env "EXA_API_KEY"
  let exa : Exa := { api_key := key }
  let result := remote exa.api_key theQuery
  ([Event.loadDotenvCall, Event.getenvCall "EXA_API_KEY",
    Event.answerCall exa.api_key theQuery],
   Except.map (fun _ => ()) result)

/-- The Answer value computed at line 8 before the script discards it:
`some` on a normal return of the remote call, `none` when the call raised. -/
def capturedAnswer (remote : Remote) (file procEnv : EnvMap) : Option Answer :=
  match remote (getenv (load_dotenv file procEnv) "EXA_API_KEY") theQuery with
  | .ok a => some a
  | .error _ => none

/-- A stub remote that rejects a missing credential and answers otherwise. -/
def stubAuthCheck : Remote := fun key _ =>
  match key with
  | none => Except.error ExaError.authenticationError
  | some _ => Except.ok { text := "ok" }

/-- A stub remote that always succeeds with one fixed Answer. -/
def stubOk : Remote := fun _ _ => Except.ok { text := "the TCP structure" }

/-- A stub remote that always succeeds with a different fixed Answer. -/
def stubOkOther : Remote := fun _ _ => Except.ok { text := "another answer" }

/-- A stub remote that always fails with a transport-level error. -/
def stubNetworkFail : Remote := fun _ _ => Except.error ExaError.networkError

/-- The arguments of the `answer` invocations recorded in a trace. -/
def answerCallsOf (tr : List Event) : List (Option String × String) :=
  tr.filterMap (fun e =>
    match e with
    | .answerCall k q => some (k, q)
    | _ => none)

/-- The writes to output channels recorded in a trace. -/
def writesOf (tr : List Event) : List (String × String) :=
  tr.filterMap (fun e =>
    match e with
    | .writeOut c d => some (c, d)
    | _ => none)

/-- Looking a key up in an appended environment inspects the left part
first. -/
theorem lookupEnv_append (l₁ l₂ : EnvMap) (k : String) :
    lookupEnv (l₁ ++ l₂) k = (lookupEnv l₁ k).or (lookupEnv l₂ k) := by
  induction l₁ with
  | nil => simp [lookupEnv]
  | cons kv rest ih =>
    by_cases h : kv.1 = k <;> simp [lookupEnv, h, ih]

/-- A lookup misses exactly when no entry carries the key. -/
theorem lookupEnv_eq_none_iff (l : EnvMap) (k : String) :
    lookupEnv l k = none ↔ ∀ kv ∈ l, kv.1 ≠ k := by
  induction l with
  | nil => simp [lookupEnv]
  | cons kv rest ih =>
    by_cases h : kv.1 = k <;> simp [lookupEnv, h, ih]

/-- Filtering an environment cannot make an absent key present. -/
theorem lookupEnv_filter_eq_none (l : EnvMap) (p : String × String → Bool)
    (k : String) (h : lookupEnv l k = none) :
    lookupEnv (l.filter p) k = none := by
  rw [lookupEnv_eq_none_iff] at h ⊢
  intro kv hkv
  exact h kv (List.mem_of_mem_filter hkv)

/-- A key bound by neither the configuration file nor the prior environment
is absent after `load_dotenv`. -/
theorem lookupEnv_load_dotenv_eq_none (file env : EnvMap) (k : String)
    (hEnv : lookupEnv env k = none) (hFile : lookupEnv file k = none) :
    lookupEnv (load_dotenv file env) k = none := by
  unfold load_dotenv
  rw [lookupEnv_append, hEnv, lookupEnv_filter_eq_none file _ k hFile]
  rfl

/-- A variable already present in the environment keeps its value across
`load_dotenv`. -/
theorem lookupEnv_load_dotenv_of_some (file env : EnvMap) (k v : String)
    (h : lookupEnv env k = some v) :
    lookupEnv (load_dotenv file env) k = some v := by
  unfold load_dotenv
  rw [lookupEnv_append, h]
  rfl

/-- An entry of the list makes its key found by lookup. -/
theorem lookupEnv_ne_none_of_mem (l : EnvMap) (kv : String × String)
    (h : kv ∈ l) : lookupEnv l kv.1 ≠ none := by
  intro hn
  exact (lookupEnv_eq_none_iff l kv.1).mp hn kv h rfl

/-- The dotenv loader is idempotent: a second call adds nothing. -/
theorem load_dotenv_idem (file env : EnvMap) :
    load_dotenv file (load_dotenv file env) = load_dotenv file env := by
  have hnil :
      file.filter (fun kv => (lookupEnv (load_dotenv file env) kv.1).isNone)
        = [] := by
    rw [List.filter_eq_nil_iff]
    intro kv hkv
    simp only [Option.isNone_iff_eq_none]
    cases hv : lookupEnv env kv.1 with
    | some v =>
      rw [lookupEnv_load_dotenv_of_some file env kv.1 v hv]
      simp
    | none =>
      have hmem : kv ∈ file.filter (fun kv => (lookupEnv env kv.1).isNone) :=
        List.mem_filter.mpr ⟨hkv, by simp [hv]⟩
      have hne := lookupEnv_ne_none_of_mem _ kv hmem
      unfold load_dotenv
      rw [lookupEnv_append, hv]
      simpa using hne
  conv_lhs => rw [load_dotenv]
  rw [hnil, List.append_nil]

/-- C1: in every execution that reaches the remote call, the query string
passed to the client's answer capability is exactly the literal
"What's the TCP structure?". -/
theorem c1_query_is_literal (remote : Remote) (file procEnv : EnvMap) :
    answerCallsOf (run remote file procEnv).1 =
      [(getenv (load_dotenv file procEnv) "EXA_API_KEY",
        "What\x27s the TCP structure?")] :=
  rfl

/-- C2: with EXA_API_KEY absent from the process environment and from the
configuration file, and the remote service rejecting a null credential with
an authentication error, the runner fails at call time with that
authentication error and never completes successfully. -/
theorem c2_missing_key_auth_failure (remote : Remote) (file procEnv : EnvMap)
    (hEnv : lookupEnv procEnv "EXA_API_KEY" = none)
    (hFile : lookupEnv file "EXA_API_KEY" = none)
    (hAuth : ∀ q, remote none q = Except.error ExaError.authenticationError) :
    (run remote file procEnv).2 = Except.error ExaError.authenticationError := by
  have hk : getenv (load_dotenv file procEnv) "EXA_API_KEY" = none :=
    lookupEnv_load_dotenv_eq_none file procEnv "EXA_API_KEY" hEnv hFile
  have hres : (run remote file procEnv).2 =
      Except.map (fun _ => ())
        (remote (getenv (load_dotenv file procEnv) "EXA_API_KEY") theQuery) :=
    rfl
  rw [hres, hk, hAuth theQuery]
  rfl

/-- C2 witness at a concrete empty environment and an auth-checking stub. -/
theorem c2_witness :
    lookupEnv ([] : EnvMap) "EXA_API_KEY" = none ∧
    (run stubAuthCheck [] []).2 = Except.error ExaError.authenticationError :=
  ⟨rfl, c2_missing_key_auth_failure stubAuthCheck [] [] rfl rfl (fun _ => rfl)⟩

/-- C3: any error raised by the remote call escapes the runner unchanged —
not caught, translated, or retried — and nothing is logged or written. -/
theorem c3_errors_escape_unchanged (remote : Remote) (file procEnv : EnvMap)
    (e : ExaError)
    (h : remote (getenv (load_dotenv file procEnv) "EXA_API_KEY") theQuery =
      Except.error e) :
    (run remote file procEnv).2 = Except.error e ∧
    writesOf (run remote file procEnv).1 = [] := by
  have hres : (run remote file procEnv).2 =
      Except.map (fun _ => ())
        (remote (getenv (load_dotenv file procEnv) "EXA_API_KEY") theQuery) :=
    rfl
  refine ⟨?_, rfl⟩
  rw [hres, h]
  rfl

/-- C3 witness with a stub that raises a transport-level error. -/
theorem c3_witness :
    stubNetworkFail (getenv (load_dotenv [] []) "EXA_API_KEY") theQuery =
      Except.error ExaError.networkError ∧
    (run stubNetworkFail [] []).2 = Except.error ExaError.networkError ∧
    writesOf (run stubNetworkFail [] []).1 = [] := by
  have h := c3_errors_escape_unchanged stubNetworkFail [] []
    ExaError.networkError rfl
  exact ⟨rfl, h.1, h.2⟩

/-- C4: the runner writes nothing to any output channel, and the Answer is
discarded: two runs whose remote calls succeed with different Answer values
are observationally identical. -/
theorem c4_answer_discarded (remote₁ remote₂ : Remote) (file procEnv : EnvMap)
    (a₁ a₂ : Answer)
    (h₁ : remote₁ (getenv (load_dotenv file procEnv) "EXA_API_KEY") theQuery =
      Except.ok a₁)
    (h₂ : remote₂ (getenv (load_dotenv file procEnv) "EXA_API_KEY") theQuery =
      Except.ok a₂) :
    writesOf (run remote₁ file procEnv).1 = [] ∧
    run remote₁ file procEnv = run remote₂ file procEnv := by
  refine ⟨rfl, ?_⟩
  have e₁ : run remote₁ file procEnv =
      ((run remote₁ file procEnv).1,
       Except.map (fun _ => ())
        (remote₁ (getenv (load_dotenv file procEnv) "EXA_API_KEY") theQuery)) :=
    rfl
  have e₂ : run remote₂ file procEnv =
      ((run remote₂ file procEnv).1,
       Except.map (fun _ => ())
        (remote₂ (getenv (load_dotenv file procEnv) "EXA_API_KEY") theQuery)) :=
    rfl
  rw [e₁, e₂, h₁, h₂]
  rfl

/-- C4 witness: two stubs answering with different values give identical
observable behavior, and no writes occur. -/
theorem c4_witness :
    stubOk (getenv (load_dotenv [] []) "EXA_API_KEY") theQuery =
      Except.ok { text := "the TCP structure" } ∧
    writesOf (run stubOk [] []).1 = [] ∧
    run stubOk [] [] = run stubOkOther [] [] := by
  have h := c4_answer_discarded stubOk stubOkOther [] []
    { text := "the TCP structure" } { text := "another answer" } rfl rfl
  exact ⟨rfl, h.1, h.2⟩

/-- C5: calling the configuration loader twice is idempotent — the second
call changes nothing, and in particular a credential value already present
in the environment namespace is unchanged; as a total function it cannot
raise. -/
theorem c5_load_dotenv_idempotent (file env : EnvMap) :
    load_dotenv file (load_dotenv file env) = load_dotenv file env ∧
    ∀ k v, lookupEnv (load_dotenv file env) k = some v →
      lookupEnv (load_dotenv file (load_dotenv file env)) k = some v := by
  refine ⟨load_dotenv_idem file env, fun k v h => ?_⟩
  rw [load_dotenv_idem file env]
  exact h

/-- C5 witness at a concrete file and environment holding the credential. -/
theorem c5_witness :
    load_dotenv [("EXA_API_KEY", "k1")]
        (load_dotenv [("EXA_API_KEY", "k1")] [("EXA_API_KEY", "k0")]) =
      load_dotenv [("EXA_API_KEY", "k1")] [("EXA_API_KEY", "k0")] ∧
    lookupEnv
        (load_dotenv [("EXA_API_KEY", "k1")]
          (load_dotenv [("EXA_API_KEY", "k1")] [("EXA_API_KEY", "k0")]))
        "EXA_API_KEY" = some "k0" := by
  have h := c5_load_dotenv_idempotent [("EXA_API_KEY", "k1")]
    [("EXA_API_KEY", "k0")]
  exact ⟨h.1, h.2 "EXA_API_KEY" "k0" (by decide)⟩

/-- C6: when EXA_API_KEY is absent everywhere, the credential read itself
does not fail — it yields none — and execution still reaches the remote
call, which receives the null credential. -/
theorem c6_absent_key_reads_none (remote : Remote) (file procEnv : EnvMap)
    (hEnv : lookupEnv procEnv "EXA_API_KEY" = none)
    (hFile : lookupEnv file "EXA_API_KEY" = none) :
    getenv (load_dotenv file procEnv) "EXA_API_KEY" = none ∧
    answerCallsOf (run remote file procEnv).1 = [(none, theQuery)] := by
  have hk : getenv (load_dotenv file procEnv) "EXA_API_KEY" = none :=
    lookupEnv_load_dotenv_eq_none file procEnv "EXA_API_KEY" hEnv hFile
  refine ⟨hk, ?_⟩
  have hcalls : answerCallsOf (run remote file procEnv).1 =
      [(getenv (load_dotenv file procEnv) "EXA_API_KEY", theQuery)] := rfl
  rw [hcalls, hk]

/-- C6 witness at a concrete empty environment. -/
theorem c6_witness :
    lookupEnv ([] : EnvMap) "EXA_API_KEY" = none ∧
    getenv (load_dotenv [] []) "EXA_API_KEY" = none ∧
    answerCallsOf (run stubAuthCheck [] []).1 = [(none, theQuery)] := by
  have h := c6_absent_key_reads_none stubAuthCheck [] [] rfl rfl
  exact ⟨rfl, h.1, h.2⟩

/-- C7: every complete non-failing execution of the runner issues exactly
one invocation of the client's answer capability. -/
theorem c7_exactly_one_call (remote : Remote) (file procEnv : EnvMap)
    (h : (run remote file procEnv).2 = Except.ok ()) :
    (answerCallsOf (run remote file procEnv).1).length = 1 :=
  rfl

/-- C7 witness on a successful concrete run. -/
theorem c7_witness :
    (run stubOk [] []).2 = Except.ok () ∧
    (answerCallsOf (run stubOk [] []).1).length = 1 :=
  ⟨rfl, c7_exactly_one_call stubOk [] [] rfl⟩

/-- C8: the trace of every execution is exactly configuration loading, then
the credential read, then the single remote call; the client is bound to
the one credential read, for its entire lifetime. -/
theorem c8_fixed_order (remote : Remote) (file procEnv : EnvMap) :
    (run remote file procEnv).1 =
      [Event.loadDotenvCall, Event.getenvCall "EXA_API_KEY",
       Event.answerCall (getenv (load_dotenv file procEnv) "EXA_API_KEY")
         theQuery] :=
  rfl

/-- C9: with EXA_API_KEY bound and a reachable remote stub that returns
normally, the runner completes without raising and the Answer produced by
the call is non-null. -/
theorem c9_success (remote : Remote) (file procEnv : EnvMap) (k : String)
    (a : Answer)
    (hk : getenv (load_dotenv file procEnv) "EXA_API_KEY" = some k)
    (hr : remote (some k) theQuery = Except.ok a) :
    (run remote file procEnv).2 = Except.ok () ∧
    capturedAnswer remote file procEnv = some a ∧
    capturedAnswer remote file procEnv ≠ none := by
  have hcall : remote (getenv (load_dotenv file procEnv) "EXA_API_KEY")
      theQuery = Except.ok a := by
    rw [hk]
    exact hr
  have hres : (run remote file procEnv).2 =
      Except.map (fun _ => ())
        (remote (getenv (load_dotenv file procEnv) "EXA_API_KEY") theQuery) :=
    rfl
  have hcap : capturedAnswer remote file procEnv = some a := by
    unfold capturedAnswer
    rw [hcall]
  refine ⟨?_, hcap, ?_⟩
  · rw [hres, hcall]
    rfl
  · rw [hcap]
    simp

/-- C9 witness with the credential set and an always-succeeding stub. -/
theorem c9_witness :
    getenv (load_dotenv [] [("EXA_API_KEY", "k")]) "EXA_API_KEY" = some "k" ∧
    (run stubOk [] [("EXA_API_KEY", "k")]).2 = Except.ok () ∧
    capturedAnswer stubOk [] [("EXA_API_KEY", "k")] =
      some { text := "the TCP structure" } := by
  have h := c9_success stubOk [] [("EXA_API_KEY", "k")] "k"
    { text := "the TCP structure" } (by decide) rfl
  exact ⟨by decide, h.1, h.2.1⟩

/-- C10: the query string sent to the remote call is identical across any
two runs, whatever each environment assigns to EXA_API_KEY — the request
content does not depend on the credential. -/
theorem c10_query_independent_of_credential (remote₁ remote₂ : Remote)
    (file₁ procEnv₁ file₂ procEnv₂ : EnvMap) :
    (answerCallsOf (run remote₁ file₁ procEnv₁).1).map Prod.snd =
    (answerCallsOf (run remote₂ file₂ procEnv₂).1).map Prod.snd :=
  rfl

end ExapyAnswer
